import Mathlib

/-
Verification of the cabax point-of-sale backend (src/main.py) against its
natural-language specification.  The Python endpoint handlers are shallowly
embedded as pure Lean functions over explicit state: the database tables
become association lists keyed by integer ids, ORM rows become structures,
`datetime` values become integer epoch seconds, and an endpoint that raises
`HTTPException` becomes a function into `Except ApiError`.

A detail that matters for the extension engine: the SQLAlchemy session is
created with `autoflush=False` (main.py line 50), so a `count()` query issued
inside a handler does not see rows `add`ed earlier in the same handler call;
only rows committed before the call are counted.  The embedding of
`extend_session` reproduces this: the duplicate-count is evaluated against
the order list as it was when the call started.
-/

namespace Cabax

/-- Errors raised by the handlers: `HTTPException(status_code, detail)`. -/
inductive ApiError where
  | httpError (status : Nat) (detail : String)
deriving DecidableEq

/-- Python truthiness of an `Optional[str]`: `None` and `""` are falsy. -/
def strTruthy : Option String → Bool
  | none => false
  | some s => !(s == "")

/-- Python `f"{x}"` rendering of an `Optional[str]` (used for `settling_by`). -/
def optStr : Option String → String
  | none => "None"
  | some s => s

/-- ORM row of `tables`. -/
structure TableState where
  name : String
  status : String
  is_vip : Bool
deriving DecidableEq

/-- ORM row of `menu_items` (the fields the embedded handlers read). -/
structure MenuItem where
  name : String
  price : Int
  cost : Int
deriving DecidableEq

/-- ORM row of `casts` (the fields the embedded handlers read). -/
structure Cast where
  stage_name : String
  drink_back_rate : Int
  companion_back : Int
  nomination_back : Int
  sales_back_rate : Int
deriving DecidableEq

/-- ORM row of `sessions`.  Timestamps are epoch seconds. -/
structure SessionState where
  table_id : Nat
  cast_id : Option Nat
  guests : Int
  catch_staff : Option String
  end_time : Option Int
  current_total : Int
  has_companion : Bool
  companion_name : Option String
  extension_count : Nat
  nomination_type : Option String
  nomination_fee : Int
  shimei_casts : Option String
  tax_rate : Int
  status : String
  is_settling : Bool
  settling_by : Option String
  settling_at : Option Int
deriving DecidableEq

/-- ORM row of `orders`. -/
structure Order where
  session_id : Nat
  menu_item_id : Option Nat
  item_name : Option String
  quantity : Int
  price : Int
  is_drink_back : Bool
  is_served : Bool
  cast_name : Option String
deriving DecidableEq

/-- ORM row of `attendances` (host/cast attendance). -/
structure Attendance where
  cast_id : Nat
  date : String
  clock_in : String
  clock_out : Option String
  status : String
deriving DecidableEq

/-- ORM row of `staff_attendances`. -/
structure StaffAttendance where
  staff_id : Nat
  date : String
  clock_in : String
  clock_out : Option String
deriving DecidableEq

/-- Request body `SessionCreate`. -/
structure SessionCreate where
  table_id : Nat
  cast_id : Nat
  guests : Int
  catch_staff : Option String
  has_companion : Bool
  companion_name : Option String
  nomination_type : Option String
  nomination_fee : Int
  shimei_casts : Option String
  tax_rate : Int
deriving DecidableEq

/-- Request body `OrderCreate`. -/
structure OrderCreate where
  session_id : Nat
  menu_item_id : Nat
  quantity : Int
  is_drink_back : Bool
  cast_name : Option String
  item_name : Option String
deriving DecidableEq

/-- Request body `AttendanceCreate`. -/
structure AttendanceCreate where
  cast_id : Nat
  date : String
  clock_in : String
deriving DecidableEq

/-- Request body `StaffAttendanceCreate`. -/
structure StaffAttendanceCreate where
  staff_id : Nat
  date : String
  clock_in : String
deriving DecidableEq

/-- `db.query(M).filter(M.id == k).first()` followed by a mutation of the
returned row: only the first row with the key is updated (ids are unique in
the database, so this is the row).  A missing key leaves the list unchanged. -/
def update_first {β : Type} (l : List (Nat × β)) (k : Nat) (f : β → β) :
    List (Nat × β) :=
  match l with
  | [] => []
  | (k2, v) :: rest =>
      if k2 == k then (k2, f v) :: rest else (k2, v) :: update_first rest k f

theorem lookup_update_first_self {β : Type} (l : List (Nat × β)) (k : Nat)
    (f : β → β) : List.lookup k (update_first l k f) = (List.lookup k l).map f := by
  induction l with
  | nil => rfl
  | cons p rest ih =>
      obtain ⟨k2, v⟩ := p
      by_cases h : k2 = k
      · subst h
        simp [update_first, List.lookup]
      · have h2 : (k == k2) = false := by
          simpa using fun hk => h hk.symm
        simp [update_first, List.lookup, h, h2, ih]

theorem lookup_update_first_ne {β : Type} (l : List (Nat × β)) (k k2 : Nat)
    (f : β → β) (h : k2 ≠ k) :
    List.lookup k2 (update_first l k f) = List.lookup k2 l := by
  induction l with
  | nil => rfl
  | cons p rest ih =>
      obtain ⟨k3, v⟩ := p
      by_cases h3 : k3 = k
      · subst h3
        have hb : (k2 == k3) = false := by simpa using h
        simp [update_first, List.lookup, hb]
      · simp [update_first, List.lookup, h3, ih]

/-!  Session lifecycle handlers (main.py: `create_session`, `create_order`,
`add_charge_to_session`, `extend_session`, `start_settling`,
`cancel_settling`, `checkout_session`).  -/

/-- The `SessionModel` row built by `create_session`: request fields plus the
column defaults; `cast_id == 0` is mapped to `NULL` before insertion. -/
def mkSession (req : SessionCreate) : SessionState :=
  { table_id := req.table_id
    cast_id := if req.cast_id == 0 then none else some req.cast_id
    guests := req.guests
    catch_staff := req.catch_staff
    end_time := none
    current_total := 0
    has_companion := req.has_companion
    companion_name := req.companion_name
    extension_count := 0
    nomination_type := req.nomination_type
    nomination_fee := req.nomination_fee
    shimei_casts := req.shimei_casts
    tax_rate := req.tax_rate
    status := "active"
    is_settling := false
    settling_by := none
    settling_at := none }

/-- `POST /api/sessions` (main.py lines 1114-1134): inserts the new session
unconditionally and, when the table exists, flips it to `occupied`.  There is
no occupancy check and no failure path; `new_id` is the autoincrement id. -/
def create_session (tables : List (Nat × TableState))
    (sessions : List (Nat × SessionState)) (req : SessionCreate)
    (new_id : Nat) : List (Nat × TableState) × List (Nat × SessionState) :=
  (update_first tables req.table_id (fun t => { t with status := "occupied" }),
   sessions ++ [(new_id, mkSession req)])

/-- `final_item_name` in `create_order` (main.py line 1360):
`order.item_name if order.item_name else menu_item.name`. -/
def final_item_name (req : OrderCreate) (menu_item : MenuItem) : String :=
  match req.item_name with
  | some s => if s == "" then menu_item.name else s
  | none => menu_item.name

/-- The `Order` row inserted by `create_order` (main.py lines 1362-1370);
the unit price is snapshotted from the menu item at call time. -/
def created_order (req : OrderCreate) (menu_item : MenuItem) : Order :=
  { session_id := req.session_id
    menu_item_id := some req.menu_item_id
    item_name := some (final_item_name req menu_item)
    quantity := req.quantity
    price := menu_item.price
    is_drink_back := req.is_drink_back
    is_served := false
    cast_name := req.cast_name }

/-- The session-side effect of `create_order` (main.py lines 1372-1374):
`if session: session.current_total += menu_item.price * order.quantity`. -/
def order_sessions_update (sessions : List (Nat × SessionState))
    (req : OrderCreate) (menu_item : MenuItem) : List (Nat × SessionState) :=
  match List.lookup req.session_id sessions with
  | some _ =>
      update_first sessions req.session_id (fun s =>
        { s with current_total := s.current_total + menu_item.price * req.quantity })
  | none => sessions

/-- `POST /api/orders` (main.py lines 1353-1377): 404 when the menu item is
absent; otherwise inserts the order and, when the session exists, increments
its running total.  Session existence is never checked. -/
def create_order (menu_items : List (Nat × MenuItem))
    (sessions : List (Nat × SessionState)) (orders : List Order)
    (req : OrderCreate) :
    Except ApiError (List (Nat × SessionState) × List Order × Order) :=
  match List.lookup req.menu_item_id menu_items with
  | none => .error (.httpError 404 "Menu item not found")
  | some menu_item =>
      .ok (order_sessions_update sessions req menu_item,
           orders ++ [created_order req menu_item],
           created_order req menu_item)

/-- The `Order` row inserted by `add_charge_to_session`
(main.py lines 1295-1303): no menu item, the label stored in `cast_name`. -/
def charge_order (session_id : Nat) (item_name : String) (price quantity : Int) :
    Order :=
  { session_id := session_id
    menu_item_id := none
    item_name := none
    quantity := quantity
    price := price
    is_drink_back := false
    is_served := true
    cast_name := some item_name }

/-- `POST /api/sessions/{id}/add-charge` (main.py lines 1283-1319): 404 when
the session is absent; otherwise inserts a catalog-free order labeled through
`cast_name` and adds `price * quantity` to the running total. -/
def add_charge_to_session (sessions : List (Nat × SessionState))
    (orders : List Order) (session_id : Nat) (item_name : String)
    (price quantity : Int) :
    Except ApiError (List (Nat × SessionState) × List Order) :=
  match List.lookup session_id sessions with
  | none => .error (.httpError 404 "Session not found")
  | some _ =>
      .ok (update_first sessions session_id (fun s =>
             { s with current_total := s.current_total + price * quantity }),
           orders ++ [charge_order session_id item_name price quantity])

/-- Whether the first list starts with the second (character-level prefix
test, written structurally so it evaluates inside the kernel). -/
def charsStartWith : List Char → List Char → Bool
  | _, [] => true
  | [], _ :: _ => false
  | c :: cs, p :: ps => c == p && charsStartWith cs ps

/-- The SQL pattern `Order.cast_name LIKE "場内指名料%"` of `extend_session`:
the label starts with the in-house-nomination prefix. -/
def is_nomination_label (s : String) : Bool :=
  charsStartWith s.data "場内指名料".data

/-- Whether an order row matches the in-house-nomination label pattern. -/
def order_has_nomination_label (o : Order) : Bool :=
  match o.cast_name with
  | some s => is_nomination_label s
  | none => false

/-- The extension-fee `Order` row inserted by `extend_session`
(main.py lines 1203-1211). -/
def extension_order (session_id : Nat) (nom_order : Order) : Order :=
  { session_id := session_id
    menu_item_id := none
    item_name := none
    quantity := 1
    price := nom_order.price
    is_drink_back := false
    is_served := true
    cast_name := nom_order.cast_name }

/-- The fee orders the `extend_session` loop inserts, given the committed
order store at the start of the call and the already-incremented extension
count: the loop walks `nomination_orders` (the orders whose label matches the
pattern) and inserts one fee order for each of them whose exact label is
borne by fewer than `new_count + 1` committed orders. -/
def extension_added (orders : List Order) (session_id : Nat)
    (new_count : Nat) : List Order :=
  (orders.filter (fun o =>
      o.session_id == session_id && order_has_nomination_label o)).filter
    (fun o =>
      (orders.filter (fun o2 =>
        o2.session_id == session_id && o2.cast_name == o.cast_name)).length
        < new_count + 1)

/-- `POST /api/sessions/{id}/extend` (main.py lines 1176-1223).  Increments
`extension_count`, then for every existing order whose label matches the
nomination pattern appends one fee order whenever the count of orders bearing
that exact label is below `extension_count + 1`.  Because `autoflush` is
disabled, every count inside the loop is evaluated against `orders` as it was
when the call started, and the rows appended by the loop are only visible
after the final commit.  Returns the updated sessions and orders together
with the labels of the appended fee orders (`added_nominations`). -/
def extend_session (sessions : List (Nat × SessionState)) (orders : List Order)
    (session_id : Nat) :
    Except ApiError (List (Nat × SessionState) × List Order × List String) :=
  match List.lookup session_id sessions with
  | none => .error (.httpError 404 "Session not found")
  | some s =>
      let new_count := s.extension_count + 1
      let added := extension_added orders session_id new_count
      .ok (update_first sessions session_id (fun s2 =>
             { s2 with
                 extension_count := new_count
                 current_total :=
                   s2.current_total + (added.map (fun o => o.price)).sum }),
           orders ++ added.map (extension_order session_id),
           added.map (fun o => optStr o.cast_name))

/-- The conflict message of `start_settling` (main.py line 1242):
`f"{session.settling_by}さんが精算中です（残り{180 - int(elapsed)}秒）"`. -/
def settlingMsg (holder : String) (remaining : Int) : String :=
  s!"{holder}さんが精算中です（残り{remaining}秒）"

/-- The lock acquisition of `start_settling` (main.py lines 1246-1248). -/
def settle_update (sessions : List (Nat × SessionState)) (session_id : Nat)
    (staff_name : String) (now : Int) : List (Nat × SessionState) :=
  update_first sessions session_id (fun s =>
    { s with is_settling := true, settling_by := some staff_name,
             settling_at := some now })

/-- `POST /api/sessions/{id}/settling/start` (main.py lines 1229-1251): 404
when the session is absent; 409 when the lock is held and less than 180
seconds old, the message carrying the holder and the remaining seconds;
otherwise acquires the lock for `staff_name` at `now`.  The caller identity
is never compared with the holder. -/
def start_settling (sessions : List (Nat × SessionState)) (session_id : Nat)
    (staff_name : String) (now : Int) :
    Except ApiError (List (Nat × SessionState)) :=
  match List.lookup session_id sessions with
  | none => .error (.httpError 404 "Session not found")
  | some s =>
      match s.is_settling, s.settling_at with
      | true, some t =>
          let elapsed := now - t
          if elapsed < 180 then
            .error (.httpError 409 (settlingMsg (optStr s.settling_by) (180 - elapsed)))
          else
            .ok (settle_update sessions session_id staff_name now)
      | _, _ => .ok (settle_update sessions session_id staff_name now)

/-- `POST /api/sessions/{id}/settling/cancel` (main.py lines 1253-1265). -/
def cancel_settling (sessions : List (Nat × SessionState)) (session_id : Nat) :
    Except ApiError (List (Nat × SessionState)) :=
  match List.lookup session_id sessions with
  | none => .error (.httpError 404 "Session not found")
  | some _ =>
      .ok (update_first sessions session_id (fun s =>
        { s with is_settling := false, settling_by := none, settling_at := none }))

/-- The session mutation of `checkout_session` (main.py lines 1272-1277). -/
def checkout_update (now : Int) (s : SessionState) : SessionState :=
  { s with status := "completed", end_time := some now,
           is_settling := false, settling_by := none, settling_at := none }

/-- The table mutation of `checkout_session` (main.py line 1279). -/
def table_available (t : TableState) : TableState :=
  { t with status := "available" }

/-- `PUT /api/sessions/{id}/checkout` (main.py lines 1267-1281): 404 when the
session is absent; otherwise marks it completed, clears the settlement lock,
and — when the referenced table exists — flips it back to `available`.  There
is no guard against a session that is already completed. -/
def checkout_session (tables : List (Nat × TableState))
    (sessions : List (Nat × SessionState)) (session_id : Nat) (now : Int) :
    Except ApiError (List (Nat × TableState) × List (Nat × SessionState)) :=
  match List.lookup session_id sessions with
  | none => .error (.httpError 404 "Session not found")
  | some s =>
      .ok (update_first tables s.table_id table_available,
           update_first sessions session_id (checkout_update now))

/-!  Attendance handlers (main.py: `clock_in`, `create_staff_attendance`).  -/

/-- `POST /api/attendance/clock-in` (main.py lines 1407-1413): inserts the
host attendance row with status `working`.  No duplicate check of any kind. -/
def clock_in (attendances : List Attendance) (req : AttendanceCreate) :
    List Attendance × Attendance :=
  let row : Attendance :=
    { cast_id := req.cast_id, date := req.date, clock_in := req.clock_in,
      clock_out := none, status := "working" }
  (attendances ++ [row], row)

/-- `POST /api/staff-attendance` (main.py lines 829-848): rejects with
HTTP 400 `"Already clocked in today"` when a record for the same staff member
and date already exists; otherwise inserts the new record. -/
def create_staff_attendance (attendances : List StaffAttendance)
    (req : StaffAttendanceCreate) :
    Except ApiError (List StaffAttendance × StaffAttendance) :=
  if attendances.any (fun a => a.staff_id == req.staff_id && a.date == req.date) then
    .error (.httpError 400 "Already clocked in today")
  else
    let row : StaffAttendance :=
      { staff_id := req.staff_id, date := req.date, clock_in := req.clock_in,
        clock_out := none }
    .ok (attendances ++ [row], row)

/-!  Read-side helpers: session order listing and report aggregation.  -/

/-- The display-name resolution of `get_session_orders` (main.py line 1151):
`order.item_name or (menu_item.name if menu_item else None) or
order.cast_name or "料金"`, with Python string truthiness. -/
def get_order_display_name (menu_items : List (Nat × MenuItem)) (o : Order) :
    String :=
  let menu_name : Option String :=
    match o.menu_item_id with
    | some i => (List.lookup i menu_items).map (fun m => m.name)
    | none => none
  if strTruthy o.item_name then (o.item_name).getD ""
  else if strTruthy menu_name then menu_name.getD ""
  else if strTruthy o.cast_name then (o.cast_name).getD ""
  else "料金"

/-- The host directory `cast_dict = {c.stage_name: c for c in casts}` followed
by `cast_dict.get(name)`: a later cast with the same stage name wins. -/
def cast_dict_get (casts : List Cast) (name : String) : Option Cast :=
  casts.foldl (fun acc c => if c.stage_name == name then some c else acc) none

/-- The drink-back amount one order contributes in `get_daily_report`
(main.py lines 1505-1512) and `get_monthly_report` (lines 1684-1690): for an
order flagged drink-back with a truthy `cast_name` that resolves to a cast,
`int(price * quantity * (cast.drink_back_rate or 10) / 100)`; `int(...)`
truncates toward zero. -/
def drink_back_contribution (casts : List Cast) (o : Order) : Int :=
  if o.is_drink_back && strTruthy o.cast_name then
    match cast_dict_get casts ((o.cast_name).getD "") with
    | some c =>
        Int.tdiv
          (o.price * o.quantity *
            (if c.drink_back_rate == 0 then 10 else c.drink_back_rate)) 100
    | none => 0
  else 0

/-- `drink_back_total` of the reports: the sum of the per-order amounts. -/
def drink_back_total (casts : List Cast) (orders : List Order) : Int :=
  (orders.map (drink_back_contribution casts)).sum

/-!  The billing accumulation as a state machine: an interleaving of
place-order, add-ad-hoc-charge and extend-session calls applied to the
session store and the order store.  -/

/-- One billing call against the ledger. -/
inductive BillingOp where
  | place (req : OrderCreate)
  | charge (session_id : Nat) (item_name : String) (price quantity : Int)
  | extend (session_id : Nat)
deriving DecidableEq

/-- The ledger the billing calls act on: the sessions table and the orders
table. -/
def SLedger : Type := List (Nat × SessionState) × List Order

/-- Run one billing call; a call that raises an `HTTPException` commits
nothing, so the ledger is unchanged on the error path. -/
def applyOp (menu_items : List (Nat × MenuItem)) (st : SLedger)
    (op : BillingOp) : SLedger :=
  match op with
  | .place req =>
      match create_order menu_items st.1 st.2 req with
      | .ok (sessions2, orders2, _) => (sessions2, orders2)
      | .error _ => st
  | .charge session_id item_name price quantity =>
      match add_charge_to_session st.1 st.2 session_id item_name price quantity with
      | .ok (sessions2, orders2) => (sessions2, orders2)
      | .error _ => st
  | .extend session_id =>
      match extend_session st.1 st.2 session_id with
      | .ok (sessions2, orders2, _) => (sessions2, orders2)
      | .error _ => st

/-- Run a sequence of billing calls in order. -/
def applyOps (menu_items : List (Nat × MenuItem)) (ops : List BillingOp)
    (st : SLedger) : SLedger :=
  ops.foldl (applyOp menu_items) st

/-- An order line's contribution to the bill: unit price times quantity. -/
def line_total (o : Order) : Int :=
  o.price * o.quantity

/-- The sum of line totals over a session's orders. -/
def ordersTotal (orders : List Order) (session_id : Nat) : Int :=
  ((orders.filter (fun o => o.session_id == session_id)).map line_total).sum

/-- The running total the sessions table records for a session, when the
session exists. -/
def session_total (sessions : List (Nat × SessionState)) (session_id : Nat) :
    Option Int :=
  (List.lookup session_id sessions).map (fun s => s.current_total)

/-- A concrete check-in request used by the witnesses. -/
def demo_req : SessionCreate :=
  { table_id := 1, cast_id := 0, guests := 2, catch_staff := none,
    has_companion := false, companion_name := none, nomination_type := none,
    nomination_fee := 0, shimei_casts := none, tax_rate := 20 }

/-- The session row `create_session` builds from `demo_req`. -/
def demo_session : SessionState := mkSession demo_req

/-!  Arithmetic lemmas about `ordersTotal` and `session_total`.  -/

theorem ordersTotal_nil (session_id : Nat) : ordersTotal [] session_id = 0 :=
  rfl

theorem ordersTotal_append (l1 l2 : List Order) (session_id : Nat) :
    ordersTotal (l1 ++ l2) session_id =
      ordersTotal l1 session_id + ordersTotal l2 session_id := by
  simp [ordersTotal, List.filter_append]

theorem ordersTotal_cons (o : Order) (l : List Order) (session_id : Nat) :
    ordersTotal (o :: l) session_id =
      (if o.session_id == session_id then line_total o else 0) +
        ordersTotal l session_id := by
  by_cases h : (o.session_id == session_id) = true
  · simp [ordersTotal, List.filter_cons, h]
  · simp [ordersTotal, List.filter_cons, h]

theorem ordersTotal_singleton (o : Order) (session_id : Nat) :
    ordersTotal [o] session_id =
      if o.session_id == session_id then line_total o else 0 := by
  rw [ordersTotal_cons, ordersTotal_nil, add_zero]

theorem ordersTotal_extension_orders (added : List Order) (session_id : Nat) :
    ordersTotal (added.map (extension_order session_id)) session_id =
      (added.map (fun o => o.price)).sum := by
  induction added with
  | nil => rfl
  | cons a rest ih =>
      rw [List.map_cons, ordersTotal_cons, ih]
      simp [extension_order, line_total]

theorem ordersTotal_extension_orders_ne (added : List Order)
    (session_id sid : Nat) (h : session_id ≠ sid) :
    ordersTotal (added.map (extension_order session_id)) sid = 0 := by
  induction added with
  | nil => rfl
  | cons a rest ih =>
      rw [List.map_cons, ordersTotal_cons, ih]
      simp [extension_order, h]

theorem session_total_update_self (sessions : List (Nat × SessionState))
    (session_id : Nat) (f : SessionState → SessionState) :
    session_total (update_first sessions session_id f) session_id =
      (List.lookup session_id sessions).map (fun s => (f s).current_total) := by
  cases h : List.lookup session_id sessions with
  | none => simp [session_total, lookup_update_first_self, h]
  | some s => simp [session_total, lookup_update_first_self, h]

theorem session_total_update_ne (sessions : List (Nat × SessionState))
    (session_id sid : Nat) (f : SessionState → SessionState)
    (h : sid ≠ session_id) :
    session_total (update_first sessions session_id f) sid =
      session_total sessions sid := by
  simp [session_total, lookup_update_first_ne _ _ _ _ h]

/-- Every single billing call preserves the running-total invariant: when the
session row records exactly the sum of its order line totals before the call,
it still does afterwards. -/
theorem applyOp_preserves_total (menu_items : List (Nat × MenuItem))
    (st : SLedger) (op : BillingOp) (sid : Nat)
    (h : session_total st.1 sid = some (ordersTotal st.2 sid)) :
    session_total (applyOp menu_items st op).1 sid =
      some (ordersTotal (applyOp menu_items st op).2 sid) := by
  obtain ⟨sessions, orders⟩ := st
  cases op with
  | place req =>
      cases hm : List.lookup req.menu_item_id menu_items with
      | none => simpa [applyOp, create_order, hm] using h
      | some mi =>
          have happly : applyOp menu_items (sessions, orders) (.place req) =
              (order_sessions_update sessions req mi,
               orders ++ [created_order req mi]) := by
            simp [applyOp, create_order, hm]
          rw [happly]
          by_cases hsid : req.session_id = sid
          · subst hsid
            cases hs : List.lookup req.session_id sessions with
            | none => simp [session_total, hs] at h
            | some s0 =>
                have h0 : s0.current_total = ordersTotal orders req.session_id := by
                  simpa [session_total, hs] using h
                rw [order_sessions_update, hs, session_total_update_self, hs,
                  ordersTotal_append, ordersTotal_singleton]
                simp [created_order, line_total, h0]
          · have hne : ((created_order req mi).session_id == sid) = false := by
              simp [created_order, hsid]
            rw [order_sessions_update]
            cases hs : List.lookup req.session_id sessions with
            | none =>
                rw [ordersTotal_append, ordersTotal_singleton]
                simpa [hne] using h
            | some s0 =>
                rw [session_total_update_ne _ _ _ _ (fun he => hsid he.symm),
                  ordersTotal_append, ordersTotal_singleton]
                simpa [hne] using h
  | charge session_id item_name price quantity =>
      cases hs : List.lookup session_id sessions with
      | none => simpa [applyOp, add_charge_to_session, hs] using h
      | some s0 =>
          have happly : applyOp menu_items (sessions, orders)
                (.charge session_id item_name price quantity) =
              (update_first sessions session_id (fun s =>
                 { s with current_total := s.current_total + price * quantity }),
               orders ++ [charge_order session_id item_name price quantity]) := by
            simp [applyOp, add_charge_to_session, hs]
          rw [happly]
          by_cases hsid : session_id = sid
          · subst hsid
            have h0 : s0.current_total = ordersTotal orders session_id := by
              simpa [session_total, hs] using h
            rw [session_total_update_self, hs, ordersTotal_append,
              ordersTotal_singleton]
            simp [charge_order, line_total, h0]
          · have hne : ((charge_order session_id item_name price quantity).session_id
                == sid) = false := by
              simp [charge_order, hsid]
            rw [session_total_update_ne _ _ _ _ (fun he => hsid he.symm),
              ordersTotal_append, ordersTotal_singleton]
            simpa [hne] using h
  | extend session_id =>
      cases hs : List.lookup session_id sessions with
      | none => simpa [applyOp, extend_session, hs] using h
      | some s0 =>
          have happly : applyOp menu_items (sessions, orders) (.extend session_id) =
              (update_first sessions session_id (fun s2 =>
                 { s2 with
                     extension_count := s0.extension_count + 1
                     current_total := s2.current_total +
                       ((extension_added orders session_id
                          (s0.extension_count + 1)).map (fun o => o.price)).sum }),
               orders ++ (extension_added orders session_id
                  (s0.extension_count + 1)).map (extension_order session_id)) := by
            simp [applyOp, extend_session, hs]
          rw [happly]
          by_cases hsid : session_id = sid
          · subst hsid
            have h0 : s0.current_total = ordersTotal orders session_id := by
              simpa [session_total, hs] using h
            rw [session_total_update_self, hs, ordersTotal_append,
              ordersTotal_extension_orders]
            simp [h0]
          · rw [session_total_update_ne _ _ _ _ (fun he => hsid he.symm),
              ordersTotal_append, ordersTotal_extension_orders_ne _ _ _ hsid]
            simpa using h

/-!  Claim theorems.  -/

/-- C1: for every session and every interleaving of place-order,
add-ad-hoc-charge and extend-session calls, the session's `current_total`
stays equal to the sum of unit price × quantity over the session's orders:
any ledger in which the session's recorded total matches its order line sum
(as a freshly opened session with no orders trivially does) still matches
after an arbitrary sequence of billing calls. -/
theorem c1_running_total_invariant (menu_items : List (Nat × MenuItem))
    (ops : List BillingOp) (sid : Nat) (st : SLedger)
    (h : session_total st.1 sid = some (ordersTotal st.2 sid)) :
    session_total (applyOps menu_items ops st).1 sid =
      some (ordersTotal (applyOps menu_items ops st).2 sid) := by
  induction ops generalizing st with
  | nil => exact h
  | cons op rest ih =>
      exact ih (applyOp menu_items st op)
        (applyOp_preserves_total menu_items st op sid h)

/-- A concrete menu item used by the witnesses. -/
def beer_item : MenuItem :=
  { name := "Beer", price := 800, cost := 300 }

/-- A concrete menu catalog used by the witnesses. -/
def demo_menu : List (Nat × MenuItem) :=
  [(5, beer_item)]

/-- A concrete available table used by the witnesses. -/
def tableA1_available : TableState :=
  { name := "A1", status := "available", is_vip := false }

/-- A concrete occupied table used by the witnesses. -/
def tableA1_occupied : TableState :=
  { name := "A1", status := "occupied", is_vip := false }

/-- A concrete interleaving of billing calls used by the C1 witness. -/
def demo_ops : List BillingOp :=
  [.place { session_id := 1, menu_item_id := 5, quantity := 2,
            is_drink_back := true, cast_name := some "Rena", item_name := none },
   .charge 1 "場内指名料:Rena" 1500 1,
   .extend 1,
   .place { session_id := 1, menu_item_id := 5, quantity := 1,
            is_drink_back := false, cast_name := none, item_name := some "Set" },
   .extend 1]

/-- Witness for C1: the invariant hypothesis holds for a freshly opened
session, and the theorem yields the invariant after a concrete interleaving
of orders, charges and extensions. -/
theorem c1_running_total_invariant_witness :
    session_total [(1, demo_session)] 1 = some (ordersTotal [] 1) ∧
    session_total (applyOps demo_menu demo_ops ([(1, demo_session)], [])).1 1 =
      some (ordersTotal (applyOps demo_menu demo_ops ([(1, demo_session)], [])).2 1) :=
  ⟨by decide,
   c1_running_total_invariant demo_menu demo_ops 1 ([(1, demo_session)], [])
     (by decide)⟩

/-- C2: while the settlement lock is held and younger than 180 seconds, any
start-settling call fails with HTTP 409 carrying the holder's name and the
remaining seconds `180 - d`; at 180 seconds or beyond, or when no lock is
held, the call succeeds and records the caller as holder with timestamp
`now`. -/
theorem c2_start_settling_window :
    (∀ (sessions : List (Nat × SessionState)) (sid : Nat) (s : SessionState)
        (H : String) (T d : Int) (name : String),
      List.lookup sid sessions = some s → s.is_settling = true →
      s.settling_at = some T → s.settling_by = some H → d < 180 →
      start_settling sessions sid name (T + d) =
        .error (.httpError 409 (settlingMsg H (180 - d)))) ∧
    (∀ (sessions : List (Nat × SessionState)) (sid : Nat) (s : SessionState)
        (T d : Int) (name : String),
      List.lookup sid sessions = some s → s.is_settling = true →
      s.settling_at = some T → 180 ≤ d →
      start_settling sessions sid name (T + d) =
        .ok (settle_update sessions sid name (T + d))) ∧
    (∀ (sessions : List (Nat × SessionState)) (sid : Nat) (s : SessionState)
        (name : String) (now : Int),
      List.lookup sid sessions = some s → s.is_settling = false →
      start_settling sessions sid name now =
        .ok (settle_update sessions sid name now)) := by
  refine ⟨?_, ?_, ?_⟩
  · intro sessions sid s H T d name hlk hset hat hby hd
    have he : T + d - T = d := by ring
    simp [start_settling, hlk, hset, hat, hby, optStr, he, hd]
  · intro sessions sid s T d name hlk hset hat hd
    have he : T + d - T = d := by ring
    simp [start_settling, hlk, hset, hat, he, not_lt.mpr hd]
  · intro sessions sid s name now hlk hset
    simp [start_settling, hlk, hset]

/-- A session whose settlement lock Alice acquired at time 1000. -/
def locked_session : SessionState :=
  { demo_session with is_settling := true, settling_by := some "Alice",
                      settling_at := some 1000 }

/-- Witness for C2: with Alice's lock taken at time 1000, Bob's call at
1000 + 90 is refused with the holder name and 90 (≥ 89) remaining seconds,
Bob's call at 1000 + 181 takes the lock over, and a call on an unlocked
session succeeds immediately. -/
theorem c2_start_settling_window_witness :
    start_settling [(7, locked_session)] 7 "Bob" (1000 + 90) =
      .error (.httpError 409 (settlingMsg "Alice" (180 - 90))) ∧
    (89 : Int) ≤ 180 - 90 ∧
    start_settling [(7, locked_session)] 7 "Bob" (1000 + 181) =
      .ok (settle_update [(7, locked_session)] 7 "Bob" (1000 + 181)) ∧
    start_settling [(7, demo_session)] 7 "Bob" 1090 =
      .ok (settle_update [(7, demo_session)] 7 "Bob" 1090) :=
  ⟨c2_start_settling_window.1 [(7, locked_session)] 7 locked_session "Alice"
     1000 90 "Bob" (by decide) rfl rfl rfl (by decide),
   by decide,
   c2_start_settling_window.2.1 [(7, locked_session)] 7 locked_session
     1000 181 "Bob" (by decide) rfl rfl (by decide),
   c2_start_settling_window.2.2 [(7, demo_session)] 7 demo_session "Bob"
     1090 (by decide) rfl⟩

/-- C9: the lock check of start-settling compares only the elapsed time,
never the caller's identity: while the lock is held and younger than 180
seconds, even a call whose staff name equals the holder's own name fails
with HTTP 409. -/
theorem c9_lock_ignores_caller_identity (sessions : List (Nat × SessionState))
    (sid : Nat) (s : SessionState) (H : String) (T d : Int)
    (hlk : List.lookup sid sessions = some s) (hset : s.is_settling = true)
    (hat : s.settling_at = some T) (hby : s.settling_by = some H)
    (hd : d < 180) :
    start_settling sessions sid H (T + d) =
      .error (.httpError 409 (settlingMsg H (180 - d))) := by
  have he : T + d - T = d := by ring
  simp [start_settling, hlk, hset, hat, hby, optStr, he, hd]

/-- Witness for C9: Alice herself, 90 seconds after taking the lock, is
refused with her own name in the message. -/
theorem c9_lock_ignores_caller_identity_witness :
    start_settling [(7, locked_session)] 7 "Alice" (1000 + 90) =
      .error (.httpError 409 (settlingMsg "Alice" (180 - 90))) :=
  c9_lock_ignores_caller_identity [(7, locked_session)] 7 locked_session
    "Alice" 1000 90 (by decide) rfl rfl rfl (by decide)

/-- C4: evaluation of the extension engine on the spec's own example (one
ad-hoc charge labeled 場内指名料:Rena at price 1500).  The first extend call
behaves as claimed: one more fee order, running total up by 1500.  The second
extend call, however, appends TWO further fee orders (four matching orders in
all, running total 6000 instead of 4500), because the duplicate-count query
runs with autoflush disabled and never sees the row inserted earlier in the
same call — contradicting the claim and the handler's own comment that the
count should cap the copies at `extension_count + 1`. -/
theorem c4_extension_duplicate_bug :
    (((applyOps [] [BillingOp.charge 1 "場内指名料:Rena" 1500 1, .extend 1]
        ([(1, demo_session)], [])).2.filter
          (fun o => o.cast_name == some "場内指名料:Rena")).length = 2 ∧
      session_total (applyOps []
        [BillingOp.charge 1 "場内指名料:Rena" 1500 1, .extend 1]
        ([(1, demo_session)], [])).1 1 = some 3000) ∧
    (((applyOps []
        [BillingOp.charge 1 "場内指名料:Rena" 1500 1, .extend 1, .extend 1]
        ([(1, demo_session)], [])).2.filter
          (fun o => o.cast_name == some "場内指名料:Rena")).length = 4 ∧
      session_total (applyOps []
        [BillingOp.charge 1 "場内指名料:Rena" 1500 1, .extend 1, .extend 1]
        ([(1, demo_session)], [])).1 1 = some 6000) ∧
    (extend_session
        (applyOps [] [BillingOp.charge 1 "場内指名料:Rena" 1500 1, .extend 1]
          ([(1, demo_session)], [])).1
        (applyOps [] [BillingOp.charge 1 "場内指名料:Rena" 1500 1, .extend 1]
          ([(1, demo_session)], [])).2 1).toOption.map
      (fun r => r.2.2.length) = some 2 := by
  decide

/-- The number of active sessions the sessions table holds for one table. -/
def active_sessions_on_table (sessions : List (Nat × SessionState))
    (table_id : Nat) : Nat :=
  (sessions.filter (fun p =>
    p.2.table_id == table_id && p.2.status == "active")).length

/-- C3 counterexample: opening a session on a table that is already occupied
by an active session is NOT rejected.  Starting from one available table,
two consecutive create-session calls on it both succeed; after the first the
table is `occupied` with one active session, and the second still goes
through, leaving two active sessions on the occupied table. -/
theorem c3_counterexample_second_session_created :
    active_sessions_on_table
      (create_session [(1, tableA1_available)] [] demo_req 1).2 1 = 1 ∧
    (List.lookup 1
      (create_session [(1, tableA1_available)] [] demo_req 1).1).map
        (fun t => t.status) = some "occupied" ∧
    active_sessions_on_table
      (create_session
        (create_session [(1, tableA1_available)] [] demo_req 1).1
        (create_session [(1, tableA1_available)] [] demo_req 1).2
        demo_req 2).2 1 = 2 := by
  decide

/-- C3 amended: create-session performs no occupancy check and has no failure
path.  It always appends a new `active` session row, so when the target table
already carries at least one active session the call yields a second active
session on that same table instead of a `ValidationError`. -/
theorem c3_create_session_never_rejects (tables : List (Nat × TableState))
    (sessions : List (Nat × SessionState)) (req : SessionCreate)
    (new_id : Nat) (h : 1 ≤ active_sessions_on_table sessions req.table_id) :
    (create_session tables sessions req new_id).2 =
      sessions ++ [(new_id, mkSession req)] ∧
    (mkSession req).status = "active" ∧
    active_sessions_on_table (create_session tables sessions req new_id).2
        req.table_id =
      active_sessions_on_table sessions req.table_id + 1 ∧
    2 ≤ active_sessions_on_table (create_session tables sessions req new_id).2
        req.table_id := by
  have hcount : active_sessions_on_table
      (create_session tables sessions req new_id).2 req.table_id =
      active_sessions_on_table sessions req.table_id + 1 := by
    simp [create_session, active_sessions_on_table, List.filter_append,
      mkSession]
  exact ⟨rfl, rfl, hcount, by omega⟩

/-- Witness for C3 amended: with one active session already on table 1, a
second create-session call yields two active sessions there. -/
theorem c3_create_session_never_rejects_witness :
    (create_session [(1, tableA1_occupied)] [(1, demo_session)] demo_req 2).2 =
      [(1, demo_session)] ++ [(2, mkSession demo_req)] ∧
    (mkSession demo_req).status = "active" ∧
    active_sessions_on_table
      (create_session [(1, tableA1_occupied)] [(1, demo_session)]
        demo_req 2).2 1 =
      active_sessions_on_table [(1, demo_session)] 1 + 1 ∧
    2 ≤ active_sessions_on_table
      (create_session [(1, tableA1_occupied)] [(1, demo_session)]
        demo_req 2).2 1 :=
  c3_create_session_never_rejects [(1, tableA1_occupied)]
    [(1, demo_session)] demo_req 2 (by decide)

/-- A cast whose drink-back rate was explicitly set to zero. -/
def rena_zero_rate : Cast :=
  { stage_name := "Rena", drink_back_rate := 0, companion_back := 3000,
    nomination_back := 1000, sales_back_rate := 0 }

/-- A drink-back-flagged order attributed to Rena: price 1000, quantity 2. -/
def rena_drink_order : Order :=
  { session_id := 1, menu_item_id := some 5, item_name := some "Beer",
    quantity := 2, price := 1000, is_drink_back := true, is_served := false,
    cast_name := some "Rena" }

/-- C5 counterexample: with the host's drink_back_rate set to 0 the reports
do NOT add price×quantity×0/100 = 0; the handler computes
`cast.drink_back_rate or 10`, so a zero rate silently falls back to the
default 10% and the order contributes 200, not 0. -/
theorem c5_counterexample_zero_rate :
    drink_back_contribution [rena_zero_rate] rena_drink_order = 200 ∧
    Int.tdiv (rena_drink_order.price * rena_drink_order.quantity *
      rena_zero_rate.drink_back_rate) 100 = 0 ∧
    (200 : Int) ≠ 0 := by
  decide

/-- C5 amended: for every order flagged drink-back with a non-empty host-name
tag resolving to a host, the contribution is price × quantity × rate / 100
truncated toward zero, where the rate is the host's drink_back_rate when it
is nonzero and the default 10 when it is zero; in particular the claimed
formula price × quantity × host.drink_back_rate / 100 holds exactly for all
nonzero rates. -/
theorem c5_drink_back_truncation (casts : List Cast) (o : Order) (n : String)
    (c : Cast) (hf : o.is_drink_back = true) (hn : o.cast_name = some n)
    (hne : n ≠ "") (hc : cast_dict_get casts n = some c) :
    drink_back_contribution casts o =
      Int.tdiv (o.price * o.quantity *
        (if c.drink_back_rate = 0 then 10 else c.drink_back_rate)) 100 ∧
    (c.drink_back_rate ≠ 0 →
      drink_back_contribution casts o =
        Int.tdiv (o.price * o.quantity * c.drink_back_rate) 100) := by
  have hb : (n == "") = false := by simpa using hne
  have ht : strTruthy (some n) = true := by simp [strTruthy, hb]
  by_cases h0 : c.drink_back_rate = 0
  · refine ⟨?_, fun hcon => absurd h0 hcon⟩
    simp [drink_back_contribution, hf, hn, ht, hc, h0]
  · have hb0 : (c.drink_back_rate == 0) = false := by simpa using h0
    constructor
    · simp [drink_back_contribution, hf, hn, ht, hc, h0, hb0]
    · intro _
      simp [drink_back_contribution, hf, hn, ht, hc, hb0]

/-- A cast with the drink-back rate 15 of the spec's numeric example. -/
def rena_fifteen : Cast :=
  { stage_name := "Rena", drink_back_rate := 15, companion_back := 3000,
    nomination_back := 1000, sales_back_rate := 0 }

/-- Witness for C5 amended: the spec's example — price 1000, quantity 2,
rate 15 — contributes exactly floor(1000×2×15/100) = 300. -/
theorem c5_drink_back_truncation_witness :
    drink_back_contribution [rena_fifteen] rena_drink_order =
      Int.tdiv (rena_drink_order.price * rena_drink_order.quantity *
        rena_fifteen.drink_back_rate) 100 ∧
    Int.tdiv (rena_drink_order.price * rena_drink_order.quantity *
      rena_fifteen.drink_back_rate) 100 = 300 :=
  ⟨(c5_drink_back_truncation [rena_fifteen] rena_drink_order "Rena"
      rena_fifteen rfl rfl (by decide) (by decide)).2 (by decide),
   by decide⟩

/-- C6: checkout on an existing session always succeeds, marks the session
completed with an end time, clears all three settlement-lock fields, and
flips the referenced table (when it exists) back to `available`; a repeated
checkout on the now-completed session again succeeds without error and
leaves the table `available`. -/
theorem c6_checkout_idempotent_table (tables : List (Nat × TableState))
    (sessions : List (Nat × SessionState)) (sid : Nat) (s : SessionState)
    (now1 now2 : Int) (h : List.lookup sid sessions = some s) :
    checkout_session tables sessions sid now1 =
      .ok (update_first tables s.table_id table_available,
           update_first sessions sid (checkout_update now1)) ∧
    List.lookup sid (update_first sessions sid (checkout_update now1)) =
      some (checkout_update now1 s) ∧
    (checkout_update now1 s).status = "completed" ∧
    (checkout_update now1 s).end_time = some now1 ∧
    (checkout_update now1 s).is_settling = false ∧
    (checkout_update now1 s).settling_by = none ∧
    (checkout_update now1 s).settling_at = none ∧
    (∀ t, List.lookup s.table_id tables = some t →
      List.lookup s.table_id (update_first tables s.table_id table_available) =
        some (table_available t)) ∧
    (∀ t, (table_available t).status = "available") ∧
    checkout_session (update_first tables s.table_id table_available)
        (update_first sessions sid (checkout_update now1)) sid now2 =
      .ok (update_first (update_first tables s.table_id table_available)
             s.table_id table_available,
           update_first (update_first sessions sid (checkout_update now1)) sid
             (checkout_update now2)) ∧
    (∀ t, List.lookup s.table_id tables = some t →
      List.lookup s.table_id
        (update_first (update_first tables s.table_id table_available)
          s.table_id table_available) = some (table_available t)) := by
  have h1 : List.lookup sid (update_first sessions sid (checkout_update now1)) =
      some (checkout_update now1 s) := by
    rw [lookup_update_first_self, h]; rfl
  refine ⟨by simp [checkout_session, h], h1, rfl, rfl, rfl, rfl, rfl,
    ?_, fun t => rfl, ?_, ?_⟩
  · intro t ht
    rw [lookup_update_first_self, ht]; rfl
  · have h2 : checkout_session (update_first tables s.table_id table_available)
        (update_first sessions sid (checkout_update now1)) sid now2 =
        .ok (update_first (update_first tables s.table_id table_available)
               (checkout_update now1 s).table_id table_available,
             update_first (update_first sessions sid (checkout_update now1))
               sid (checkout_update now2)) := by
      simp [checkout_session, h1]
    exact h2
  · intro t ht
    rw [lookup_update_first_self, lookup_update_first_self, ht]; rfl

/-- Witness for C6: a concrete checkout of session 7 on table 1, checked out
twice at times 2000 and 2100. -/
theorem c6_checkout_idempotent_table_witness :
    checkout_session [(1, tableA1_occupied)] [(7, locked_session)] 7 2000 =
      .ok (update_first [(1, tableA1_occupied)] locked_session.table_id
             table_available,
           update_first [(7, locked_session)] 7 (checkout_update 2000)) ∧
    List.lookup 7 (update_first [(7, locked_session)] 7 (checkout_update 2000)) =
      some (checkout_update 2000 locked_session) ∧
    (checkout_update 2000 locked_session).status = "completed" ∧
    (checkout_update 2000 locked_session).end_time = some 2000 ∧
    (checkout_update 2000 locked_session).is_settling = false ∧
    (checkout_update 2000 locked_session).settling_by = none ∧
    (checkout_update 2000 locked_session).settling_at = none ∧
    (∀ t, List.lookup locked_session.table_id [(1, tableA1_occupied)] = some t →
      List.lookup locked_session.table_id
        (update_first [(1, tableA1_occupied)] locked_session.table_id
          table_available) = some (table_available t)) ∧
    (∀ t, (table_available t).status = "available") ∧
    checkout_session
        (update_first [(1, tableA1_occupied)] locked_session.table_id
          table_available)
        (update_first [(7, locked_session)] 7 (checkout_update 2000)) 7 2100 =
      .ok (update_first (update_first [(1, tableA1_occupied)]
             locked_session.table_id table_available)
             locked_session.table_id table_available,
           update_first (update_first [(7, locked_session)] 7
             (checkout_update 2000)) 7 (checkout_update 2100)) ∧
    (∀ t, List.lookup locked_session.table_id [(1, tableA1_occupied)] = some t →
      List.lookup locked_session.table_id
        (update_first (update_first [(1, tableA1_occupied)]
          locked_session.table_id table_available)
          locked_session.table_id table_available) = some (table_available t)) :=
  c6_checkout_idempotent_table [(1, tableA1_occupied)]
    [(7, locked_session)] 7 locked_session 2000 2100 (by decide)

/-- C7: an order created with a non-empty custom item name stores that name
verbatim, and the display-name resolution of every subsequent read returns
the custom name for ANY state of the menu catalog — in particular after the
catalog item's name has been changed. -/
theorem c7_custom_item_name_round_trip (menu_items : List (Nat × MenuItem))
    (sessions : List (Nat × SessionState)) (orders : List Order)
    (req : OrderCreate) (m : MenuItem) (n : String)
    (hm : List.lookup req.menu_item_id menu_items = some m)
    (hn : req.item_name = some n) (hne : n ≠ "") :
    create_order menu_items sessions orders req =
      .ok (order_sessions_update sessions req m,
           orders ++ [created_order req m], created_order req m) ∧
    (created_order req m).item_name = some n ∧
    (∀ menu_items2 : List (Nat × MenuItem),
      get_order_display_name menu_items2 (created_order req m) = n) := by
  have hb : (n == "") = false := by simpa using hne
  refine ⟨by simp [create_order, hm], ?_, ?_⟩
  · simp [created_order, final_item_name, hn, hb]
  · intro menu_items2
    simp [get_order_display_name, created_order, final_item_name, hn, hb,
      strTruthy]

/-- An order request carrying a custom item name, used by the C7 witness. -/
def custom_name_req : OrderCreate :=
  { session_id := 1, menu_item_id := 5, quantity := 1, is_drink_back := false,
    cast_name := none, item_name := some "カクテル（カシスオレンジ）" }

/-- Witness for C7: an order on menu item 5 ("Beer") with the custom name
"カクテル（カシスオレンジ）" keeps that name, and the display resolution
still returns it whatever the catalog holds afterwards. -/
theorem c7_custom_item_name_round_trip_witness :
    create_order demo_menu [(1, demo_session)] [] custom_name_req =
      .ok (order_sessions_update [(1, demo_session)] custom_name_req beer_item,
           [] ++ [created_order custom_name_req beer_item],
           created_order custom_name_req beer_item) ∧
    (created_order custom_name_req beer_item).item_name =
      some "カクテル（カシスオレンジ）" ∧
    (∀ menu_items2 : List (Nat × MenuItem),
      get_order_display_name menu_items2
        (created_order custom_name_req beer_item) =
        "カクテル（カシスオレンジ）") :=
  c7_custom_item_name_round_trip demo_menu [(1, demo_session)] []
    custom_name_req beer_item "カクテル（カシスオレンジ）"
    (by decide) rfl (by decide)

/-- The number of attendance rows for one cast on one date. -/
def attendance_count (attendances : List Attendance) (cast_id : Nat)
    (date : String) : Nat :=
  (attendances.filter (fun a => a.cast_id == cast_id && a.date == date)).length

/-- A staff attendance row already present for staff 3 on 2025-01-01. -/
def staff3_row : StaffAttendance :=
  { staff_id := 3, date := "2025-01-01", clock_in := "18:00",
    clock_out := none }

/-- A second clock-in request for staff 3 on the same date. -/
def staff3_req : StaffAttendanceCreate :=
  { staff_id := 3, date := "2025-01-01", clock_in := "19:30" }

/-- A host attendance row already present for cast 1 on 2025-01-01. -/
def cast1_row : Attendance :=
  { cast_id := 1, date := "2025-01-01", clock_in := "19:00",
    clock_out := none, status := "working" }

/-- A clock-in request for cast 1 on 2025-01-01. -/
def cast1_req : AttendanceCreate :=
  { cast_id := 1, date := "2025-01-01", clock_in := "19:00" }

/-- C8 counterexample: host clock-in has no duplicate check.  Clocking the
same cast in twice on the same date succeeds both times and leaves two
attendance rows for that cast and date — no Conflict is raised. -/
theorem c8_counterexample_host_double_clock_in :
    (clock_in (clock_in [] cast1_req).1 cast1_req).1.length = 2 ∧
    attendance_count (clock_in (clock_in [] cast1_req).1 cast1_req).1
      1 "2025-01-01" = 2 := by
  decide

/-- C8 amended: only the support-staff clock-in rejects duplicates — with
HTTP 400 "Already clocked in today", leaving the records unchanged — while
the host/cast clock-in performs no duplicate check at all: every call,
including a repeated one for the same cast and date, appends one more
attendance row. -/
theorem c8_duplicate_clock_in_staff_only :
    (∀ (atts : List StaffAttendance) (req : StaffAttendanceCreate),
      (atts.any fun a => a.staff_id == req.staff_id && a.date == req.date) =
        true →
      create_staff_attendance atts req =
        .error (.httpError 400 "Already clocked in today")) ∧
    (∀ (atts : List Attendance) (req : AttendanceCreate),
      attendance_count (clock_in atts req).1 req.cast_id req.date =
        attendance_count atts req.cast_id req.date + 1) := by
  constructor
  · intro atts req hdup
    simp [create_staff_attendance, hdup]
  · intro atts req
    simp [clock_in, attendance_count, List.filter_append]

/-- Witness for C8 amended: a duplicate staff clock-in is refused, and a
duplicate host clock-in adds a second row. -/
theorem c8_duplicate_clock_in_staff_only_witness :
    create_staff_attendance [staff3_row] staff3_req =
      .error (.httpError 400 "Already clocked in today") ∧
    attendance_count (clock_in [cast1_row] cast1_req).1 1 "2025-01-01" =
      attendance_count [cast1_row] 1 "2025-01-01" + 1 :=
  ⟨c8_duplicate_clock_in_staff_only.1 [staff3_row] staff3_req (by decide),
   c8_duplicate_clock_in_staff_only.2 [cast1_row] cast1_req⟩

/-- C10: placing an order with an existing menu item and a session id that
matches no session succeeds: the order row is created with the catalog price
snapshot and returned, and the sessions table is left completely unchanged —
session existence is never validated. -/
theorem c10_order_without_session (menu_items : List (Nat × MenuItem))
    (sessions : List (Nat × SessionState)) (orders : List Order)
    (req : OrderCreate) (m : MenuItem)
    (hm : List.lookup req.menu_item_id menu_items = some m)
    (hs : List.lookup req.session_id sessions = none) :
    create_order menu_items sessions orders req =
      .ok (sessions, orders ++ [created_order req m], created_order req m) ∧
    (created_order req m).price = m.price ∧
    (created_order req m).quantity = req.quantity := by
  refine ⟨?_, rfl, rfl⟩
  simp [create_order, hm, order_sessions_update, hs]

/-- An order request aimed at the absent session 99, for the C10 witness. -/
def orphan_order_req : OrderCreate :=
  { session_id := 99, menu_item_id := 5, quantity := 2, is_drink_back := false,
    cast_name := none, item_name := none }

/-- Witness for C10: an order against the absent session 99 is still
created with the catalog price, and the sessions table stays as it was. -/
theorem c10_order_without_session_witness :
    create_order demo_menu [(1, demo_session)] [] orphan_order_req =
      .ok ([(1, demo_session)],
           [] ++ [created_order orphan_order_req beer_item],
           created_order orphan_order_req beer_item) ∧
    (created_order orphan_order_req beer_item).price = beer_item.price ∧
    (created_order orphan_order_req beer_item).quantity =
      orphan_order_req.quantity :=
  c10_order_without_session demo_menu [(1, demo_session)] []
    orphan_order_req beer_item (by decide) (by decide)

end Cabax
